import Mathlib

/-!
Shallow embedding of the KGR leaderboard API (`src/server.js`) in Lean 4.

The source file holds two near-duplicate variants of the same server:
variant 1 (lines 1-204) prunes the `scores` table to the best 100 rows
after every insert and orders by `score DESC, created_at ASC, id ASC`;
variant 2 (lines 205-393) never prunes and orders its read queries by
`score DESC, created_at ASC` only.  Both variants are embedded below;
`submitScore` / `leaderboard` are variant 1, `submitScoreV2` /
`leaderboardV2` are variant 2.  Shared helpers (`clampScore`,
`isRecent`, the address regex, the payment filter) are textually
identical in the two variants and are defined once.

JavaScript numbers are embedded as `JSNumber` (NaN, the two infinities,
or a finite value modelled as a rational); `Date` parsing is embedded as
an `Option ℤ` millisecond timestamp, with `none` standing for an
unparseable value (whose `getTime()` is NaN, making every comparison
false).  Fields that may be absent on a fetched JSON record are
`Option`-valued, `none` standing for JavaScript `undefined`.
-/

namespace KGR

/-- Fixed asset code, `KALE_CODE` in `src/server.js`. -/
def KALE_CODE : String := "KALE"

/-- Fixed asset issuer, `KALE_ISSUER` in `src/server.js`. -/
def KALE_ISSUER : String := "GBDVX4VELCDSQ54KQJYTNHXAHFLBCA77ZY2USQBM4CSHTTV7DME7KALE"

/-- Fixed treasury account, `TREASURY` in `src/server.js`. -/
def TREASURY : String := "GDIH6XE3UZ5CW37X3OKVS3SYKHG32PRPXPT3722NJ2AY3MOLCQNMUUTT"

/-- A JavaScript number: NaN, an infinity, or a finite value (modelled
as a rational; every IEEE double is a rational and the operations the
source applies to scores are exact on this range). -/
inductive JSNumber where
  | nan
  | posInf
  | negInf
  | finite (q : ℚ)
deriving DecidableEq, Repr

/-- `clampScore` from `src/server.js`:
`const n = Math.floor(Number(raw)); if (!Number.isFinite(n) || n < 0) return 0;
return Math.min(n, 1_000_000_000);`.
`Math.floor` of NaN or an infinity is itself, which `Number.isFinite`
rejects, so the non-finite branches return 0. -/
def clampScore (raw : JSNumber) : ℤ :=
  match raw with
  | .finite q =>
      let n : ℤ := ⌊q⌋
      if n < 0 then 0 else min n 1000000000
  | _ => 0

/-- `isRecent` from `src/server.js`:
`(Date.now() - new Date(iso).getTime()) <= minutes * 60 * 1000`.
`now` is `Date.now()` in epoch milliseconds; `t` is the parsed
`getTime()` of the ISO string, `none` when the string is unparseable
(NaN there makes the `<=` comparison false). -/
def isRecent (now : ℤ) (t : Option ℤ) (minutes : ℤ) : Bool :=
  match t with
  | some tm => decide (now - tm ≤ minutes * 60 * 1000)
  | none => false

/-- `String(address).toUpperCase()` from `src/server.js`, embedded as
per-character uppercasing (the alphabet the handler accepts afterwards
is plain ASCII). -/
def jsToUpper (s : String) : String :=
  ⟨s.data.map Char.toUpper⟩

/-- One character of the class `[A-Z2-7]` in the address regex. -/
def isBase32Char (c : Char) : Bool :=
  (65 ≤ c.toNat && c.toNat ≤ 90) || (50 ≤ c.toNat && c.toNat ≤ 55)

/-- The address pattern `^G[A-Z2-7]{55}$` from `src/server.js`. -/
def validAddress (s : String) : Bool :=
  s.length == 56 && s.data.take 1 == ['G'] && (s.data.drop 1).all isBase32Char

/-- The memo gate from `src/server.js`:
`tx.memo_type && tx.memo_type !== "none"` decides rejection.  An absent
`memo_type` (`none`) and the empty string are both falsy in JavaScript,
so neither triggers the rejection. -/
def memoNotAllowed (memo_type : Option String) : Bool :=
  match memo_type with
  | none => false
  | some s => s != "" && s != "none"

/-- An operation record as fetched from the ledger; each field may be
absent on the JSON object (`none` = `undefined`). -/
structure OperationRecord where
  type : Option String
  «to» : Option String
  «from» : Option String
  asset_type : Option String
  asset_code : Option String
  asset_issuer : Option String
  amount : Option String
deriving DecidableEq, Repr

/-- The `validPays` filter predicate from `src/server.js` (applied to
each fetched operation with the uppercased claimed address). -/
def isValidPay (address : String) (o : OperationRecord) : Bool :=
  o.type == some "payment" &&
  o.«to» == some TREASURY &&
  (o.asset_type == some "credit_alphanum4" || o.asset_type == some "credit_alphanum12") &&
  o.asset_code == some KALE_CODE &&
  o.asset_issuer == some KALE_ISSUER &&
  o.amount == some "1.0000000" &&
  o.«from» == some address

/-- A transaction record as fetched from the ledger. -/
structure TransactionRecord where
  successful : Option Bool
  memo_type : Option String
  created_at : Option String
deriving DecidableEq, Repr

/-- The external ledger (Horizon), as seen through `getJson`: each fetch
either returns a parsed record or throws `Horizon error {status}` for a
non-2xx response, embedded as `Except` with the HTTP status. -/
structure Ledger where
  fetchTx : String → Except Nat TransactionRecord
  fetchOps : String → Except Nat (List OperationRecord)

/-- One row of the `scores` table. -/
structure ScoreEntry where
  id : Nat
  address : String
  score : ℤ
  tx_hash : String
  paid_at : Option String
  created_at : ℤ
  ip : Option String
  ua : Option String
deriving DecidableEq, Repr

/-- The `scores` table: its rows plus the next `BIGSERIAL` id. -/
structure Store where
  entries : List ScoreEntry
  nextId : Nat
deriving DecidableEq, Repr

/-- The ranking key `score DESC, created_at ASC, id ASC` used by
variant 1's queries, as a boolean comparison. -/
def rankLE (a b : ScoreEntry) : Bool :=
  if a.score ≠ b.score then decide (b.score < a.score)
  else if a.created_at ≠ b.created_at then decide (a.created_at < b.created_at)
  else decide (a.id ≤ b.id)

/-- The ordering `score DESC, created_at ASC` of variant 2's read
queries (no `id` tie-break; equal rows keep table order here, one of
the orders the database is free to pick). -/
def rankLEV2 (a b : ScoreEntry) : Bool :=
  if a.score ≠ b.score then decide (b.score < a.score)
  else decide (a.created_at ≤ b.created_at)

/-- One row of a leaderboard response:
`SELECT address, score, tx_hash AS "txHash", paid_at AS "paidAtISO"`. -/
structure LeaderRow where
  address : String
  score : ℤ
  txHash : String
  paidAtISO : Option String
deriving DecidableEq, Repr

/-- Projection of a stored row to a response row. -/
def toRow (e : ScoreEntry) : LeaderRow :=
  { address := e.address, score := e.score, txHash := e.tx_hash, paidAtISO := e.paid_at }

/-- `topN` from variant 1 of `src/server.js`: first `n` rows by
`score DESC, created_at ASC, id ASC`. -/
def topN (st : Store) (n : Nat) : List LeaderRow :=
  ((st.entries.mergeSort rankLE).take n).map toRow

/-- The top-`n` read query of variant 2 (`score DESC, created_at ASC`,
no `id` tie-break). -/
def topNV2 (st : Store) (n : Nat) : List LeaderRow :=
  ((st.entries.mergeSort rankLEV2).take n).map toRow

/-- The `INSERT INTO scores ...` statement: appends a row with the next
serial id, or fails (`none`) when the `tx_hash UNIQUE` constraint is
violated. -/
def insertScore (st : Store) (address : String) (score : ℤ) (tx_hash : String)
    (paid_at : Option String) (now : ℤ) (ip ua : Option String) : Option Store :=
  if st.entries.any (fun e => e.tx_hash == tx_hash) then none
  else
    let row : ScoreEntry :=
      { id := st.nextId, address := address, score := score, tx_hash := tx_hash,
        paid_at := paid_at, created_at := now, ip := ip, ua := ua }
    some { entries := st.entries ++ [row], nextId := st.nextId + 1 }

/-- The auto-trim `DELETE` of variant 1: every row whose `id` is not
among the top 100 by `score DESC, created_at ASC, id ASC` is deleted. -/
def prune (st : Store) : Store :=
  let keep := ((st.entries.mergeSort rankLE).take 100).map (fun e => e.id)
  { st with entries := st.entries.filter (fun e => decide (e.id ∈ keep)) }

/-- Outcome of a `/submitScore` request: a plain-text response with a
status code, or the 200 JSON success carrying a top-10 snapshot. -/
inductive SubmitOutcome where
  | text (status : Nat) (body : String)
  | okTop (top10 : List LeaderRow)
deriving DecidableEq, Repr

/-- Whether the outcome is the 200 success response. -/
def SubmitOutcome.isOk : SubmitOutcome → Bool
  | .okTop _ => true
  | .text _ _ => false

/-- Body of the 400 shape-check rejection. -/
def missingFieldsMsg : String := "txHash, address, score required"

/-- Body of the 400 rejection when not exactly one valid payment. -/
def noValidPayMsg : String := "no valid KALE payment op to treasury from address"

/-- Message of the error the pg driver throws when the `tx_hash UNIQUE`
constraint rejects an insert; the handler's catch sends it with a 500. -/
def dupKeyMessage : String := "duplicate key value violates unique constraint"

/-- Message of the error `getJson` throws on a non-2xx ledger reply. -/
def horizonErrorMsg (status : Nat) : String := "Horizon error " ++ toString status

/-- A `/submitScore` request body (plus request provenance).  `none` in
`txHash`/`address` stands for an absent field, `none` in `score` for a
value whose `typeof` is not `"number"`. -/
structure SubmitRequest where
  txHash : Option String
  address : Option String
  score : Option JSNumber
  ip : Option String
  userAgent : Option String

/-- Lines 173-193 of variant 1: the insert, the auto-trim, and the 200
response — or, when the insert itself hits the uniqueness constraint
(a concurrent duplicate committed after this request's pre-check), the
generic catch, which replies 500 with the driver's message. -/
def storePhase (st : Store) (address : String) (normScore : ℤ) (txHash : String)
    (paidAt : Option String) (now : ℤ) (ip ua : Option String) : SubmitOutcome × Store :=
  match insertScore st address normScore txHash paidAt now ip ua with
  | none => (.text 500 dupKeyMessage, st)
  | some st1 => (.okTop (topN (prune st1) 10), prune st1)

/-- The store-and-respond phase of variant 2: same insert and catch,
but no auto-trim; the 200 carries the top 10 by variant 2's order. -/
def storePhaseV2 (st : Store) (address : String) (normScore : ℤ) (txHash : String)
    (paidAt : Option String) (now : ℤ) (ip ua : Option String) : SubmitOutcome × Store :=
  match insertScore st address normScore txHash paidAt now ip ua with
  | none => (.text 500 dupKeyMessage, st)
  | some st1 => (.okTop (topNV2 st1 10), st1)

/-- The `POST /submitScore` handler of variant 1.  `now` is the server
clock (`Date.now()` and the row's `created_at`); `parseDate` embeds
`new Date(s).getTime()` (`none` = NaN). -/
def submitScore (led : Ledger) (now : ℤ) (parseDate : String → Option ℤ)
    (req : SubmitRequest) (st : Store) : SubmitOutcome × Store :=
  match req.txHash, req.address, req.score with
  | some txHash, some address0, some score =>
    if txHash == "" || address0 == "" then (.text 400 missingFieldsMsg, st)
    else if !(validAddress (jsToUpper address0)) then (.text 400 "bad address", st)
    else if st.entries.any (fun e => e.tx_hash == txHash) then (.text 409 "tx already used", st)
    else
      match led.fetchTx txHash with
      | .error status => (.text 500 (horizonErrorMsg status), st)
      | .ok tx =>
        if !(tx.successful == some true) then (.text 400 "tx not successful", st)
        else if memoNotAllowed tx.memo_type then (.text 400 "memos not allowed", st)
        else if !(isRecent now (tx.created_at.bind parseDate) 30) then (.text 400 "tx too old", st)
        else
          match led.fetchOps txHash with
          | .error status => (.text 500 (horizonErrorMsg status), st)
          | .ok ops =>
            if (ops.filter (isValidPay (jsToUpper address0))).length != 1 then
              (.text 400 noValidPayMsg, st)
            else
              storePhase st (jsToUpper address0) (clampScore score) txHash tx.created_at now
                req.ip req.userAgent
  | _, _, _ => (.text 400 missingFieldsMsg, st)

/-- The `POST /submitScore` handler of variant 2: identical guards,
then `storePhaseV2` (no auto-trim). -/
def submitScoreV2 (led : Ledger) (now : ℤ) (parseDate : String → Option ℤ)
    (req : SubmitRequest) (st : Store) : SubmitOutcome × Store :=
  match req.txHash, req.address, req.score with
  | some txHash, some address0, some score =>
    if txHash == "" || address0 == "" then (.text 400 missingFieldsMsg, st)
    else if !(validAddress (jsToUpper address0)) then (.text 400 "bad address", st)
    else if st.entries.any (fun e => e.tx_hash == txHash) then (.text 409 "tx already used", st)
    else
      match led.fetchTx txHash with
      | .error status => (.text 500 (horizonErrorMsg status), st)
      | .ok tx =>
        if !(tx.successful == some true) then (.text 400 "tx not successful", st)
        else if memoNotAllowed tx.memo_type then (.text 400 "memos not allowed", st)
        else if !(isRecent now (tx.created_at.bind parseDate) 30) then (.text 400 "tx too old", st)
        else
          match led.fetchOps txHash with
          | .error status => (.text 500 (horizonErrorMsg status), st)
          | .ok ops =>
            if (ops.filter (isValidPay (jsToUpper address0))).length != 1 then
              (.text 400 noValidPayMsg, st)
            else
              storePhaseV2 st (jsToUpper address0) (clampScore score) txHash tx.created_at now
                req.ip req.userAgent
  | _, _, _ => (.text 400 missingFieldsMsg, st)

/-- Truthiness of a JavaScript number: NaN and 0 are falsy. -/
def jsTruthyNum : JSNumber → Bool
  | .nan => false
  | .finite q => q != 0
  | _ => true

/-- `Math.min` on two JavaScript numbers (NaN propagates). -/
def jsMin : JSNumber → JSNumber → JSNumber
  | .nan, _ => .nan
  | _, .nan => .nan
  | .posInf, b => b
  | a, .posInf => a
  | .negInf, _ => .negInf
  | _, .negInf => .negInf
  | .finite a, .finite b => .finite (min a b)

/-- `Math.max` on two JavaScript numbers (NaN propagates). -/
def jsMax : JSNumber → JSNumber → JSNumber
  | .nan, _ => .nan
  | _, .nan => .nan
  | .negInf, b => b
  | a, .negInf => a
  | .posInf, _ => .posInf
  | _, .posInf => .posInf
  | .finite a, .finite b => .finite (max a b)

/-- The effective limit of `GET /leaderboard`:
`Math.max(1, Math.min(Number(req.query.limit) || 50, 100))`, applied to
the already-coerced `Number(req.query.limit)` (NaN when the parameter
is missing or non-numeric). -/
def effLimit (n : JSNumber) : JSNumber :=
  jsMax (.finite 1) (jsMin (if jsTruthyNum n then n else .finite 50) (.finite 100))

/-- Number of rows a `LIMIT` of the given value yields (the effective
limit is always a finite value in `[1, 100]`; see `C8_amended`). -/
def limToNat : JSNumber → Nat
  | .finite q => (⌊q⌋).toNat
  | _ => 0

/-- The `GET /leaderboard` handler of variant 1. -/
def leaderboard (st : Store) (limit : JSNumber) : List LeaderRow :=
  topN st (limToNat (effLimit limit))

/-- The `GET /leaderboard` handler of variant 2 (ordering without the
`id` tie-break). -/
def leaderboardV2 (st : Store) (limit : JSNumber) : List LeaderRow :=
  topNV2 st (limToNat (effLimit limit))

/-- Modelled from the spec's words for claim C8: the effective limit
"clamped to the interval [1, 100] with default 50 when the parameter is
missing or non-numeric" (missing and non-numeric both coerce to NaN). -/
def claimEffLimit : JSNumber → ℚ
  | .nan => 50
  | .posInf => 100
  | .negInf => 1
  | .finite q => max 1 (min q 100)

/-- Well-formedness of the store: row ids are distinct and below the
next serial id (what `BIGSERIAL PRIMARY KEY` guarantees). -/
def StoreWF (st : Store) : Prop :=
  (st.entries.map (fun e => e.id)).Nodup ∧ ∀ e ∈ st.entries, e.id < st.nextId

/-! ## Fixtures used by the concrete counterexamples and witnesses -/

/-- A syntactically valid claimed address: `G` plus 55 characters of
the accepted alphabet. -/
def gaddr : String := "GAAAAAAAAAAAAAAAAAAAAAAAAAAAAAAAAAAAAAAAAAAAAAAAAAAAAAAA"

/-- The freshly created `scores` table. -/
def emptyStore : Store := { entries := [], nextId := 1 }

/-- An operation that passes every conjunct of the payment filter for
`gaddr`. -/
def onePayOp : OperationRecord :=
  { type := some "payment", «to» := some TREASURY, «from» := some gaddr,
    asset_type := some "credit_alphanum4", asset_code := some KALE_CODE,
    asset_issuer := some KALE_ISSUER, amount := some "1.0000000" }

/-- A successful, memo-free, recent transaction record. -/
def okTx : TransactionRecord :=
  { successful := some true, memo_type := none, created_at := some "2024-01-01T00:00:00Z" }

/-- A ledger that answers every fetch with `okTx` and a single
qualifying payment operation. -/
def okLedger : Ledger :=
  { fetchTx := fun _ => .ok okTx, fetchOps := fun _ => .ok [onePayOp] }

/-- A date parser that reads every string as epoch time 0 (the server
clock in the concrete runs is also 0, so everything is recent). -/
def pd0 : String → Option ℤ := fun _ => some 0

/-- The i-th submission of the concrete runs: fresh tx hash `T{i}`,
address `gaddr`, score 1. -/
def reqN (i : Nat) : SubmitRequest :=
  { txHash := some ("T" ++ toString i), address := some gaddr,
    score := some (.finite 1), ip := none, userAgent := none }

/-- The row the first concrete run (`reqN 0`) inserts. -/
def rowT0 : ScoreEntry :=
  { id := 1, address := gaddr, score := 1, tx_hash := "T0", paid_at := none,
    created_at := 0, ip := none, ua := none }

/-- A store that already holds a row for tx hash `T0`. -/
def cStoreT : Store := { entries := [rowT0], nextId := 2 }

/-- A transaction whose `memo_type` is present but is the empty string. -/
def emptyMemoTx : TransactionRecord :=
  { successful := some true, memo_type := some "", created_at := some "2024-01-01T00:00:00Z" }

/-- A ledger answering with `emptyMemoTx` and one qualifying payment. -/
def emptyMemoLedger : Ledger :=
  { fetchTx := fun _ => .ok emptyMemoTx, fetchOps := fun _ => .ok [onePayOp] }

/-- `n` consecutive variant-2 submissions with fresh tx hashes, folded
over the store; the boolean records whether every run answered 200. -/
def runV2ok : Nat → Store → Bool × Store
  | 0, st => (true, st)
  | n + 1, st =>
      let p := submitScoreV2 okLedger 0 pd0 (reqN n) st
      let q := runV2ok n p.2
      (p.1.isOk && q.1, q.2)

/-- A second submission of tx hash `T0` with a malformed address. -/
def req2bad : SubmitRequest :=
  { txHash := some "T0", address := some "x", score := some (.finite 5),
    ip := none, userAgent := none }

/-- A second submission of tx hash `T0` with a well-formed address and a
different score. -/
def req2ok : SubmitRequest :=
  { txHash := some "T0", address := some gaddr, score := some (.finite 7),
    ip := none, userAgent := none }

/-! ## Store lemmas -/

/-- Unfolding of a successful insert. -/
theorem insertScore_eq_some {st : Store} {address : String} {score : ℤ} {tx_hash : String}
    {paid_at : Option String} {now : ℤ} {ip ua : Option String} {st1 : Store}
    (h : insertScore st address score tx_hash paid_at now ip ua = some st1) :
    st.entries.any (fun e => e.tx_hash == tx_hash) = false ∧
    st1.entries = st.entries ++
      [{ id := st.nextId, address := address, score := score, tx_hash := tx_hash,
         paid_at := paid_at, created_at := now, ip := ip, ua := ua }] ∧
    st1.nextId = st.nextId + 1 := by
  unfold insertScore at h
  split at h
  · simp at h
  · rename_i hany
    injection h with h'
    subst h'
    exact ⟨by simpa using hany, rfl, rfl⟩

theorem prune_entries (st : Store) :
    (prune st).entries = st.entries.filter
      (fun e => decide (e.id ∈ ((st.entries.mergeSort rankLE).take 100).map (fun e => e.id))) :=
  rfl

theorem prune_nextId (st : Store) : (prune st).nextId = st.nextId := rfl

/-- Membership after the auto-trim, for stores with distinct ids: the
surviving rows are exactly the first 100 of the ranking order. -/
theorem mem_prune {st : Store} (hnd : (st.entries.map (fun e => e.id)).Nodup) (e : ScoreEntry) :
    e ∈ (prune st).entries ↔ e ∈ (st.entries.mergeSort rankLE).take 100 := by
  constructor
  · intro hmem
    rw [prune_entries, List.mem_filter] at hmem
    obtain ⟨he, hid⟩ := hmem
    rw [decide_eq_true_iff, List.mem_map] at hid
    obtain ⟨e', he', hide⟩ := hid
    have he'mem : e' ∈ st.entries :=
      List.mem_mergeSort.mp (List.take_subset _ _ he')
    have : e = e' := List.inj_on_of_nodup_map hnd he he'mem hide.symm
    rw [this]; exact he'
  · intro hmem
    have he : e ∈ st.entries := List.mem_mergeSort.mp (List.take_subset _ _ hmem)
    rw [prune_entries, List.mem_filter]
    refine ⟨he, ?_⟩
    rw [decide_eq_true_iff, List.mem_map]
    exact ⟨e, hmem, rfl⟩

/-- The auto-trim leaves at most 100 rows, for stores with distinct ids. -/
theorem prune_length_le {st : Store} (hnd : (st.entries.map (fun e => e.id)).Nodup) :
    (prune st).entries.length ≤ 100 := by
  have hsub : ((prune st).entries.map (fun e => e.id)) ⊆
      ((st.entries.mergeSort rankLE).take 100).map (fun e => e.id) := by
    intro x hx
    rw [List.mem_map] at hx
    obtain ⟨e, he, rfl⟩ := hx
    rw [prune_entries, List.mem_filter] at he
    exact (decide_eq_true_iff).mp he.2
  have hndp : ((prune st).entries.map (fun e => e.id)).Nodup := by
    rw [prune_entries]
    exact List.Nodup.sublist (List.Sublist.map _ (List.filter_sublist _)) hnd
  have hle := (List.subperm_of_subset hndp hsub).length_le
  rw [List.length_map, List.length_map] at hle
  exact le_trans hle (le_trans (List.length_take_le _ _) (le_refl 100))

/-- With at most 100 rows stored, the auto-trim deletes nothing. -/
theorem prune_of_le_100 {st : Store} (h : st.entries.length ≤ 100) : prune st = st := by
  have hlen : (st.entries.mergeSort rankLE).length ≤ 100 := by
    rw [List.length_mergeSort]; exact h
  have htake : (st.entries.mergeSort rankLE).take 100 = st.entries.mergeSort rankLE :=
    List.take_of_length_le hlen
  have hent : (prune st).entries = st.entries := by
    rw [prune_entries, htake, List.filter_eq_self]
    intro e he
    rw [decide_eq_true_iff, List.mem_map]
    exact ⟨e, List.mem_mergeSort.mpr he, rfl⟩
  calc prune st = ⟨(prune st).entries, (prune st).nextId⟩ := rfl
    _ = ⟨st.entries, st.nextId⟩ := by rw [hent, prune_nextId]
    _ = st := rfl

/-- A successful insert preserves store well-formedness. -/
theorem insertScore_wf {st st1 : Store} {address : String} {score : ℤ} {tx_hash : String}
    {paid_at : Option String} {now : ℤ} {ip ua : Option String}
    (hwf : StoreWF st) (h : insertScore st address score tx_hash paid_at now ip ua = some st1) :
    StoreWF st1 := by
  obtain ⟨hnd, hlt⟩ := hwf
  obtain ⟨-, hent, hnext⟩ := insertScore_eq_some h
  constructor
  · rw [hent, List.map_append, List.nodup_append]
    refine ⟨hnd, by simp, ?_⟩
    intro x hx hx'
    simp only [List.map_cons, List.map_nil, List.mem_singleton] at hx'
    rw [List.mem_map] at hx
    obtain ⟨e, he, rfl⟩ := hx
    exact absurd hx' (Nat.ne_of_lt (hlt e he))
  · intro e he
    rw [hent, List.mem_append] at he
    rw [hnext]
    rcases he with he | he
    · exact Nat.lt_succ_of_lt (hlt e he)
    · rw [List.mem_singleton] at he
      rw [he]
      exact Nat.lt_succ_self _

/-- The auto-trim preserves store well-formedness. -/
theorem prune_wf {st : Store} (hwf : StoreWF st) : StoreWF (prune st) := by
  obtain ⟨hnd, hlt⟩ := hwf
  constructor
  · rw [prune_entries]
    exact List.Nodup.sublist (List.Sublist.map _ (List.filter_sublist _)) hnd
  · intro e he
    rw [prune_nextId]
    rw [prune_entries, List.mem_filter] at he
    exact hlt e he.1

/-! ## Ranking-order lemmas -/

/-- The ranking comparison of variant 1 is total. -/
theorem rankLE_total (a b : ScoreEntry) : rankLE a b || rankLE b a := by
  unfold rankLE
  split_ifs <;> simp <;> omega

/-- The ranking comparison of variant 1 is transitive. -/
theorem rankLE_trans (a b c : ScoreEntry) (hab : rankLE a b) (hbc : rankLE b c) :
    rankLE a c := by
  unfold rankLE at hab hbc ⊢
  split_ifs at hab hbc ⊢ <;> simp_all <;> omega

/-! ## Handler case analysis -/

/-- Every run of the variant-1 handler either rejects and leaves the
store untouched, or passes every check, inserts a fresh row, prunes,
and answers 200 with a top-10 snapshot. -/
theorem submitScore_cases {led : Ledger} {now : ℤ} {pd : String → Option ℤ}
    {req : SubmitRequest} {st : Store} {out : SubmitOutcome} {st' : Store}
    (hrun : submitScore led now pd req st = (out, st')) :
    (st' = st ∧ out.isOk = false) ∨
    (∃ txh addr0 sc tx st1,
      req.txHash = some txh ∧ req.address = some addr0 ∧ req.score = some sc ∧
      txh ≠ "" ∧ led.fetchTx txh = Except.ok tx ∧
      insertScore st (jsToUpper addr0) (clampScore sc) txh tx.created_at now req.ip req.userAgent
        = some st1 ∧
      st' = prune st1 ∧ out = .okTop (topN (prune st1) 10)) := by
  unfold submitScore storePhase at hrun
  split at hrun
  case h_2 =>
    injection hrun with h1 h2
    exact Or.inl ⟨h2.symm, by rw [← h1]; rfl⟩
  case h_1 txh addr0 sc htx haddr hsc =>
    split at hrun
    · injection hrun with h1 h2
      exact Or.inl ⟨h2.symm, by rw [← h1]; rfl⟩
    · rename_i hshape
      split at hrun
      · injection hrun with h1 h2
        exact Or.inl ⟨h2.symm, by rw [← h1]; rfl⟩
      · split at hrun
        · injection hrun with h1 h2
          exact Or.inl ⟨h2.symm, by rw [← h1]; rfl⟩
        · split at hrun
          · injection hrun with h1 h2
            exact Or.inl ⟨h2.symm, by rw [← h1]; rfl⟩
          · rename_i tx hfetch
            split at hrun
            · injection hrun with h1 h2
              exact Or.inl ⟨h2.symm, by rw [← h1]; rfl⟩
            · split at hrun
              · injection hrun with h1 h2
                exact Or.inl ⟨h2.symm, by rw [← h1]; rfl⟩
              · split at hrun
                · injection hrun with h1 h2
                  exact Or.inl ⟨h2.symm, by rw [← h1]; rfl⟩
                · split at hrun
                  · injection hrun with h1 h2
                    exact Or.inl ⟨h2.symm, by rw [← h1]; rfl⟩
                  · rename_i ops hops
                    split at hrun
                    · injection hrun with h1 h2
                      exact Or.inl ⟨h2.symm, by rw [← h1]; rfl⟩
                    · split at hrun
                      · injection hrun with h1 h2
                        exact Or.inl ⟨h2.symm, by rw [← h1]; rfl⟩
                      · rename_i st1 hins
                        injection hrun with h1 h2
                        refine Or.inr ⟨txh, addr0, sc, tx, st1, htx, haddr, hsc, ?_, hfetch,
                          hins, h2.symm, h1.symm⟩
                        simp only [Bool.or_eq_true, beq_iff_eq] at hshape
                        intro hcon
                        exact hshape (Or.inl hcon)

/-! ## Claims -/

/-- Claim C1, counterexample: with a row for `T0` already committed, a
submission of `T0` that reaches the write (the race the claim is about:
here the store already holds the hash when the insert runs, as after a
concurrent duplicate commits between pre-check and insert) gets the
generic 500 carrying the driver's duplicate-key message — not the
claimed 409 `tx already used`. -/
theorem C1_counterexample :
    (storePhase cStoreT gaddr 5 "T0" none 0 none none).1 = .text 500 dupKeyMessage ∧
    (storePhase cStoreT gaddr 5 "T0" none 0 none none).1 ≠ .text 409 "tx already used" := by
  constructor <;> decide

/-- Claim C1, amended: when the INSERT into the scores store hits the
`tx_hash` uniqueness constraint (the submitted hash already has a row at
write time), the store-and-respond phase of the `/submitScore` handler
answers the generic 500 with the database error message and leaves the
store unchanged; the 409 `tx already used` is produced only by the
pre-check, never by the write-time constraint violation. -/
theorem C1_writeTimeDuplicate_is_500 (st : Store) (address : String) (normScore : ℤ)
    (txHash : String) (paidAt : Option String) (now : ℤ) (ip ua : Option String)
    (h : ∃ e ∈ st.entries, e.tx_hash = txHash) :
    storePhase st address normScore txHash paidAt now ip ua = (.text 500 dupKeyMessage, st) := by
  obtain ⟨e, he, hx⟩ := h
  have hany : st.entries.any (fun e => e.tx_hash == txHash) = true :=
    List.any_eq_true.mpr ⟨e, he, by simp [hx]⟩
  unfold storePhase insertScore
  simp [hany]

/-- Claim C1, witness: the amended theorem evaluated on the concrete
one-row store. -/
theorem C1_witness :
    storePhase cStoreT gaddr 5 "T0" none 0 none none = (.text 500 dupKeyMessage, cStoreT) :=
  C1_writeTimeDuplicate_is_500 cStoreT gaddr 5 "T0" none 0 none none (by decide)

set_option maxRecDepth 10000 in
/-- Claim C2, counterexample: 101 consecutive variant-2 submissions with
fresh tx hashes from the empty store all answer 200, yet the store then
holds 101 rows — variant 2 has no prune step, so the claimed 100-row
capacity invariant fails on it. -/
theorem C2_counterexample :
    (runV2ok 101 emptyStore).1 = true ∧ (runV2ok 101 emptyStore).2.entries.length = 101 := by
  constructor <;> decide

/-- Claim C2, amended (holds for the pruning variant 1): after any
successful `/submitScore` run from a well-formed store, the store holds
at most 100 rows, is again well-formed, and its rows are exactly the
first 100 of the post-insert store in the ranking order
`score DESC, created_at ASC, id ASC`. -/
theorem C2_capacity_invariant (led : Ledger) (now : ℤ) (pd : String → Option ℤ)
    (req : SubmitRequest) (st : Store) (out : SubmitOutcome) (st' : Store)
    (hwf : StoreWF st) (hrun : submitScore led now pd req st = (out, st'))
    (hok : out.isOk = true) :
    st'.entries.length ≤ 100 ∧ StoreWF st' ∧
    ∃ st1, st' = prune st1 ∧
      ∀ e, e ∈ st'.entries ↔ e ∈ (st1.entries.mergeSort rankLE).take 100 := by
  rcases submitScore_cases hrun with ⟨-, hno⟩ |
    ⟨txh, addr0, sc, tx, st1, -, -, -, -, -, hins, hst, -⟩
  · rw [hno] at hok; cases hok
  · have hwf1 : StoreWF st1 := insertScore_wf hwf hins
    subst hst
    exact ⟨prune_length_le hwf1.1, prune_wf hwf1, st1, rfl, fun e => mem_prune hwf1.1 e⟩

/-- Claim C2, witness: the amended theorem evaluated on a concrete
successful run from the empty store. -/
theorem C2_witness :
    (submitScore okLedger 0 pd0 (reqN 0) emptyStore).2.entries.length ≤ 100 ∧
    StoreWF (submitScore okLedger 0 pd0 (reqN 0) emptyStore).2 ∧
    ∃ st1, (submitScore okLedger 0 pd0 (reqN 0) emptyStore).2 = prune st1 ∧
      ∀ e, e ∈ (submitScore okLedger 0 pd0 (reqN 0) emptyStore).2.entries ↔
        e ∈ (st1.entries.mergeSort rankLE).take 100 :=
  C2_capacity_invariant okLedger 0 pd0 (reqN 0) emptyStore _ _
    ⟨by decide, by decide⟩ rfl (by decide)

/-- Claim C3, counterexample: after a successful submission of `T0`, a
second request with the same `T0` but address `"x"` is rejected 400
`bad address` — not the claimed 409 — because the address-syntax check
runs before the replay check, so the 409 is not independent of the
address value supplied on the second attempt. -/
theorem C3_counterexample :
    (submitScore okLedger 0 pd0 (reqN 0) emptyStore).1.isOk = true ∧
    (submitScore okLedger 0 pd0 req2bad (submitScore okLedger 0 pd0 (reqN 0) emptyStore).2).1
      = .text 400 "bad address" ∧
    (submitScore okLedger 0 pd0 req2bad (submitScore okLedger 0 pd0 (reqN 0) emptyStore).2).1
      ≠ .text 409 "tx already used" := by
  refine ⟨by decide, by decide, by decide⟩

/-- Claim C3, amended: for sequential submissions of the same `txHash`
where the first succeeds (from a store of at most 99 rows, so the new
row survives the prune), the second receives the 409 `tx already used`
rejection with the store unchanged, for every score value and every
address that passes the shape and address-syntax checks. -/
theorem C3_replay_conflict (led led2 : Ledger) (now now2 : ℤ)
    (pd pd2 : String → Option ℤ) (req1 req2 : SubmitRequest) (st0 st1 : Store)
    (out1 : SubmitOutcome)
    (hsmall : st0.entries.length ≤ 99)
    (hrun : submitScore led now pd req1 st0 = (out1, st1)) (hok : out1.isOk = true)
    (txh : String) (htx1 : req1.txHash = some txh) (htx2 : req2.txHash = some txh)
    (addr : String) (haddr : req2.address = some addr) (hane : addr ≠ "")
    (hvalid : validAddress (jsToUpper addr) = true)
    (sc : JSNumber) (hsc : req2.score = some sc) :
    submitScore led2 now2 pd2 req2 st1 = (.text 409 "tx already used", st1) := by
  rcases submitScore_cases hrun with ⟨-, hno⟩ |
    ⟨txh', addr0, sc', tx, stI, htx', -, -, hne, -, hins, hst, -⟩
  · rw [hno] at hok; cases hok
  · rw [htx1] at htx'
    injection htx' with h
    subst h
    obtain ⟨-, hent, -⟩ := insertScore_eq_some hins
    have hlenI : stI.entries.length ≤ 100 := by
      rw [hent, List.length_append]
      simp only [List.length_singleton]
      omega
    have hst1 : st1 = stI := by rw [hst, prune_of_le_100 hlenI]
    have hmem : stI.entries.any (fun e => e.tx_hash == txh) = true := by
      apply List.any_eq_true.mpr
      refine ⟨⟨st0.nextId, jsToUpper addr0, clampScore sc', txh, tx.created_at, now,
        req1.ip, req1.userAgent⟩, ?_, by simp⟩
      rw [hent]
      exact List.mem_append_right _ (List.mem_singleton_self _)
    obtain ⟨rtx, raddr, rsc, rip, rua⟩ := req2
    dsimp only at htx2 haddr hsc
    subst htx2 haddr hsc hst1
    simp only [submitScore]
    simp [hne, hane, hvalid, hmem]

/-- Claim C3, witness: the amended theorem evaluated on a concrete pair
of runs — first `T0` succeeds, the well-formed resubmission gets 409. -/
theorem C3_witness :
    submitScore okLedger 0 pd0 req2ok (submitScore okLedger 0 pd0 (reqN 0) emptyStore).2
      = (.text 409 "tx already used", (submitScore okLedger 0 pd0 (reqN 0) emptyStore).2) :=
  C3_replay_conflict okLedger okLedger 0 0 pd0 pd0 (reqN 0) req2ok emptyStore _ _
    (by decide) rfl (by decide) "T0" rfl rfl gaddr rfl (by decide) (by decide) (.finite 7) rfl

/-- Claim C4 (confirmed): once a submission reaches the operations
check, it is accepted exactly when the fetched operations contain
exactly one record passing every conjunct of `isValidPay` (type
payment, destination the treasury, named-asset type with the fixed code
and issuer, amount the exact string "1.0000000", source the uppercased
claimed address); zero or several matches yield the 400
no-valid-payment rejection. -/
theorem C4_exactlyOnePayment (led : Ledger) (now : ℤ) (pd : String → Option ℤ)
    (st : Store) (txh addr0 : String) (sc : JSNumber) (rip rua : Option String)
    (h4 : txh ≠ "") (h5 : addr0 ≠ "")
    (h6 : validAddress (jsToUpper addr0) = true)
    (h7 : st.entries.any (fun e => e.tx_hash == txh) = false)
    (tx : TransactionRecord) (h8 : led.fetchTx txh = Except.ok tx)
    (h9 : tx.successful = some true) (h10 : memoNotAllowed tx.memo_type = false)
    (h11 : isRecent now (tx.created_at.bind pd) 30 = true)
    (ops : List OperationRecord) (h12 : led.fetchOps txh = Except.ok ops) :
    ((submitScore led now pd ⟨some txh, some addr0, some sc, rip, rua⟩ st).1.isOk = true ↔
      (ops.filter (isValidPay (jsToUpper addr0))).length = 1) ∧
    ((ops.filter (isValidPay (jsToUpper addr0))).length ≠ 1 →
      (submitScore led now pd ⟨some txh, some addr0, some sc, rip, rua⟩ st).1
        = .text 400 noValidPayMsg) := by
  simp only [submitScore, h8, h12]
  have c1 : (txh == "" || addr0 == "") = false := by simp [h4, h5]
  have c2 : (!validAddress (jsToUpper addr0)) = false := by simp [h6]
  have c4 : (!(tx.successful == some true)) = false := by simp [h9]
  have c6 : (!isRecent now (tx.created_at.bind pd) 30) = false := by simp [h11]
  simp only [c1, c2, h7, c4, h10, c6, Bool.false_eq_true, if_false]
  by_cases hlen : (ops.filter (isValidPay (jsToUpper addr0))).length = 1
  · have hb : ((ops.filter (isValidPay (jsToUpper addr0))).length != 1) = false := by
      simp [hlen]
    simp only [hb, Bool.false_eq_true, if_false]
    unfold storePhase insertScore
    simp [h7, hlen, SubmitOutcome.isOk]
  · have hb : ((ops.filter (isValidPay (jsToUpper addr0))).length != 1) = true := by
      simp [hlen]
    simp only [hb, if_true]
    simp [SubmitOutcome.isOk, hlen]

/-- Claim C4, witness: the theorem evaluated on a concrete run whose
ledger reports exactly one qualifying payment. -/
theorem C4_witness :
    ((submitScore okLedger 0 pd0 ⟨some "T0", some gaddr, some (.finite 1), none, none⟩
        emptyStore).1.isOk = true ↔
      (([onePayOp]).filter (isValidPay (jsToUpper gaddr))).length = 1) ∧
    ((([onePayOp]).filter (isValidPay (jsToUpper gaddr))).length ≠ 1 →
      (submitScore okLedger 0 pd0 ⟨some "T0", some gaddr, some (.finite 1), none, none⟩
          emptyStore).1 = .text 400 noValidPayMsg) :=
  C4_exactlyOnePayment okLedger 0 pd0 emptyStore "T0" gaddr (.finite 1) none none
    (by decide) (by decide) (by decide) (by decide) okTx rfl rfl rfl (by decide) [onePayOp] rfl

/-- Claim C5, counterexample: the memo gate treats the empty string as
falsy, so a transaction whose `memo_type` is `""` — which the claim says
must be rejected with the memo reason — passes the gate, and a full
submission carrying it is accepted with 200. -/
theorem C5_counterexample :
    memoNotAllowed (some "") = false ∧
    (submitScore emptyMemoLedger 0 pd0 (reqN 0) emptyStore).1.isOk = true := by
  constructor <;> decide

/-- Claim C5, amended: the memo check accepts a transaction exactly when
its `memo_type` is absent, the empty string, or the sentinel "none";
only a present, non-empty value different from "none" triggers the
memos-not-allowed rejection. -/
theorem C5_memoGate_falsy (m : Option String) :
    memoNotAllowed m = false ↔ m = none ∨ m = some "" ∨ m = some "none" := by
  cases m with
  | none => simp [memoNotAllowed]
  | some s =>
    simp only [memoNotAllowed, Bool.and_eq_false_iff, bne_eq_false_iff_eq,
      Option.some.injEq, reduceCtorEq, false_or]

/-- Claim C6 (confirmed): `clampScore` is total by construction and for
every input its value lies in `[0, 1000000000]`; each non-finite input
(NaN and the two infinities) yields 0. -/
theorem C6_clampScore_total_and_bounded :
    ∀ r : JSNumber, 0 ≤ clampScore r ∧ clampScore r ≤ 1000000000 ∧
      clampScore .nan = 0 ∧ clampScore .posInf = 0 ∧ clampScore .negInf = 0 := by
  intro r
  refine ⟨?_, ?_, rfl, rfl, rfl⟩ <;>
    cases r <;> simp only [clampScore] <;> (try split) <;> omega

/-- Claim C7 (confirmed): every accepted submission writes a row whose
score is `clampScore` of the claimed score — the clamped value, never
the raw client number. -/
theorem C7_storedScore_is_clamped (led : Ledger) (now : ℤ) (pd : String → Option ℤ)
    (req : SubmitRequest) (st : Store) (out : SubmitOutcome) (st' : Store)
    (hrun : submitScore led now pd req st = (out, st')) (hok : out.isOk = true)
    (sc : JSNumber) (hsc : req.score = some sc) (txh : String) (htx : req.txHash = some txh) :
    ∃ st1, st' = prune st1 ∧ ∃ e ∈ st1.entries, e.tx_hash = txh ∧ e.score = clampScore sc := by
  rcases submitScore_cases hrun with ⟨-, hno⟩ |
    ⟨txh', addr0, sc', tx, st1, htx', -, hsc', -, -, hins, hst, -⟩
  · rw [hno] at hok; cases hok
  · rw [htx] at htx'
    injection htx' with h
    subst h
    rw [hsc] at hsc'
    injection hsc' with h
    subst h
    obtain ⟨-, hent, -⟩ := insertScore_eq_some hins
    refine ⟨st1, hst, ⟨st.nextId, jsToUpper addr0, clampScore sc, txh, tx.created_at, now,
      req.ip, req.userAgent⟩, ?_, rfl, rfl⟩
    rw [hent]
    exact List.mem_append_right _ (List.mem_singleton_self _)

/-- Claim C7, witness: the theorem evaluated on a concrete accepted
submission with claimed score 1. -/
theorem C7_witness :
    ∃ st1, (submitScore okLedger 0 pd0 (reqN 0) emptyStore).2 = prune st1 ∧
      ∃ e ∈ st1.entries, e.tx_hash = "T0" ∧ e.score = clampScore (.finite 1) :=
  C7_storedScore_is_clamped okLedger 0 pd0 (reqN 0) emptyStore _ _ rfl (by decide)
    (.finite 1) rfl "T0" rfl

/-- Claim C8, counterexample: for `limit=0` — numeric and present — the
handler's `Number(limit) || 50` yields the default 50, while the claimed
clamp of 0 into `[1, 100]` would give 1. -/
theorem C8_counterexample :
    effLimit (.finite 0) = .finite 50 ∧ claimEffLimit (.finite 0) = 1 ∧
    effLimit (.finite 0) ≠ .finite (claimEffLimit (.finite 0)) := by
  refine ⟨by decide, by decide, by decide⟩

/-- Claim C8, amended (variant 1): the effective limit is always a
finite value in `[1, 100]`, with default 50 when the coerced limit is
NaN (missing or non-numeric) and also when it is 0 (falsy); the
response is the projection of the first that-many entries of a
rank-ordered (`score DESC, created_at ASC, id ASC`) permutation of the
store.  (Variant 2's query orders without the `id` tie-break.) -/
theorem C8_leaderboard_clamp_and_order (st : Store) (n : JSNumber) :
    (∃ q : ℚ, effLimit n = .finite q ∧ 1 ≤ q ∧ q ≤ 100) ∧
    effLimit .nan = .finite 50 ∧ effLimit (.finite 0) = .finite 50 ∧
    ∃ sorted : List ScoreEntry, st.entries.Perm sorted ∧
      sorted.Pairwise (fun a b => rankLE a b = true) ∧
      leaderboard st n = (sorted.take (limToNat (effLimit n))).map toRow := by
  refine ⟨?_, by decide, by decide,
    st.entries.mergeSort rankLE, (List.mergeSort_perm _ _).symm,
    List.sorted_mergeSort (fun a b c => rankLE_trans a b c) rankLE_total _, rfl⟩
  cases n with
  | nan => exact ⟨50, rfl, by norm_num, by norm_num⟩
  | posInf => exact ⟨100, rfl, by norm_num, by norm_num⟩
  | negInf => exact ⟨1, rfl, by norm_num, by norm_num⟩
  | finite q =>
    by_cases h : q = 0
    · subst h
      exact ⟨50, by decide, by norm_num, by norm_num⟩
    · refine ⟨max 1 (min q 100), ?_, le_max_left _ _, ?_⟩
      · simp [effLimit, jsTruthyNum, jsMin, jsMax, h]
      · exact max_le (by norm_num) (le_trans (min_le_right _ _) (by norm_num))

/-- Claim C9 (confirmed): the recency check is one-sided — it accepts
exactly when `now - t` is at most 30 minutes, hence it accepts every
creation time in the future of the verification time by any margin, and
an unparseable creation time (NaN) is rejected. -/
theorem C9_isRecent_one_sided (now t : ℤ) :
    (isRecent now (some t) 30 = true ↔ now - t ≤ 30 * 60 * 1000) ∧
    (now < t → isRecent now (some t) 30 = true) ∧
    isRecent now none 30 = false := by
  refine ⟨by simp [isRecent], ?_, rfl⟩
  intro h
  simp only [isRecent, decide_eq_true_iff]
  omega

/-- Claim C9, witness: the theorem evaluated at a creation time ten days
in the future of the verification time. -/
theorem C9_witness :
    (isRecent 0 (some 864000000) 30 = true ↔ (0 : ℤ) - 864000000 ≤ 30 * 60 * 1000) ∧
    ((0 : ℤ) < 864000000 → isRecent 0 (some 864000000) 30 = true) ∧
    isRecent 0 none 30 = false :=
  C9_isRecent_one_sided 0 864000000

/-- Claim C10 (confirmed): a submission whose score is a non-finite
number passes the shape check (its `typeof` is "number") and is never
rejected with the missing-fields message; when verification then
succeeds, the row written before pruning carries score 0. -/
theorem C10_nonfinite_score_stored_zero (led : Ledger) (now : ℤ) (pd : String → Option ℤ)
    (st : Store) (txh addr0 : String) (sc : JSNumber) (rip rua : Option String)
    (h3 : txh ≠ "") (h4 : addr0 ≠ "")
    (hscore : sc = JSNumber.nan ∨ sc = JSNumber.posInf ∨ sc = JSNumber.negInf) :
    (submitScore led now pd ⟨some txh, some addr0, some sc, rip, rua⟩ st).1
      ≠ .text 400 missingFieldsMsg ∧
    ((submitScore led now pd ⟨some txh, some addr0, some sc, rip, rua⟩ st).1.isOk = true →
      ∃ st1, (submitScore led now pd ⟨some txh, some addr0, some sc, rip, rua⟩ st).2 = prune st1 ∧
        ∃ e ∈ st1.entries, e.score = 0) := by
  have hclamp : clampScore sc = 0 := by
    rcases hscore with h | h | h <;> subst h <;> rfl
  constructor
  · have c1 : (txh == "" || addr0 == "") = false := by simp [h3, h4]
    intro hcon
    simp only [submitScore, c1, Bool.false_eq_true, if_false] at hcon
    unfold storePhase at hcon
    repeat' split at hcon
    all_goals simp [missingFieldsMsg, noValidPayMsg, dupKeyMessage, horizonErrorMsg] at hcon
  · intro hok
    have hp : submitScore led now pd ⟨some txh, some addr0, some sc, rip, rua⟩ st =
        ((submitScore led now pd ⟨some txh, some addr0, some sc, rip, rua⟩ st).1,
         (submitScore led now pd ⟨some txh, some addr0, some sc, rip, rua⟩ st).2) := rfl
    rcases submitScore_cases hp with ⟨-, hno⟩ |
      ⟨txh', addr0', sc', tx, st1, -, -, hsc', -, -, hins, hst, -⟩
    · simp [hno] at hok
    · dsimp only at hsc'
      injection hsc' with h
      subst h
      obtain ⟨-, hent, -⟩ := insertScore_eq_some hins
      refine ⟨st1, hst, ⟨st.nextId, jsToUpper addr0', clampScore sc, txh', tx.created_at, now,
        rip, rua⟩, ?_, hclamp⟩
      rw [hent]
      exact List.mem_append_right _ (List.mem_singleton_self _)

/-- Claim C10, witness: the theorem evaluated on a concrete run with a
NaN score. -/
theorem C10_witness :
    (submitScore okLedger 0 pd0 ⟨some "T0", some gaddr, some JSNumber.nan, none, none⟩
        emptyStore).1 ≠ .text 400 missingFieldsMsg ∧
    ((submitScore okLedger 0 pd0 ⟨some "T0", some gaddr, some JSNumber.nan, none, none⟩
        emptyStore).1.isOk = true →
      ∃ st1, (submitScore okLedger 0 pd0 ⟨some "T0", some gaddr, some JSNumber.nan, none, none⟩
          emptyStore).2 = prune st1 ∧ ∃ e ∈ st1.entries, e.score = 0) :=
  C10_nonfinite_score_stored_zero okLedger 0 pd0 emptyStore "T0" gaddr JSNumber.nan none none
    (by decide) (by decide) (Or.inl rfl)

end KGR
